import Mathlib

/-
  Verification of the sparrow-rockfinch capsule-based ownership-transfer protocol.

  Shallow embedding of src/src/pycapsule.cpp, src/src/sparrow_stream_python_class.cpp
  and src/unnamed/part_006 (the second SparrowStream implementation).

  Modelling conventions:
  - The three Arrow C-ABI structs are records; a release function pointer is a Bool
    (true = non-null).  Invoking a release callback is modelled as incrementing a
    per-struct-kind counter in the global state and nulling the field, which is the
    Arrow contract for release implementations.
  - Heap allocated structs live in per-kind heaps (lists of cells); a pointer is an
    index, a freed cell is none.
  - PyCapsule_New may fail; failures are driven by an explicit allocation plan in the
    state (fault injection), head of the list decides the next allocation, an empty
    plan means all allocations succeed.
  - The Python error indicator (PyErr) is a field of the state, set where the source
    calls PyErr_SetString and where the CPython functions document setting it.
  - sparrow (the native columnar-array library) is the external collaborator of the
    spec; its operations used by the source are modelled from the spec where marked.
-/

set_option autoImplicit false

namespace SparrowRockfinch

/-- ArrowSchema C struct: the format string stands for all type-describing payload,
plus the ownership-carrying release function pointer (true = non-null). -/
structure ArrowSchema where
  format : String
  release : Bool
deriving Repr, DecidableEq

/-- ArrowArray C struct: logical length, null count, the per-element contents standing
for the physical buffers, and the release function pointer (true = non-null). -/
structure ArrowArray where
  length : Nat
  null_count : Nat
  contents : List (Option Int)
  release : Bool
deriving Repr, DecidableEq

/-- ArrowArrayStream C struct: the schema and the FIFO of not-yet-pulled arrays stand
for the private data behind get_schema and get_next, plus the release pointer. -/
structure ArrowArrayStream where
  schema : Option ArrowSchema
  queued : List ArrowArray
  release : Bool
deriving Repr, DecidableEq

/-- A PyCapsule: a tag name and the wrapped raw pointer (a heap index).  The destructor
is determined by the tag in all uses of the source. -/
structure Capsule where
  tag : String
  ptr : Nat
deriving Repr, DecidableEq

/-- sparrow::array: the native array value, holding its two Arrow structs by value. -/
structure array where
  m_arr : ArrowArray
  m_schema : ArrowSchema
deriving Repr, DecidableEq

/-- The default constructed sparrow::array (written array with empty braces in the
source): empty, with both release pointers null. -/
def array.empty : array :=
  { m_arr := { length := 0, null_count := 0, contents := [], release := false },
    m_schema := { format := "", release := false } }

/-- array::size of sparrow, the logical length. -/
def array.size (a : array) : Nat := a.m_arr.length

/-- Global state: the three struct heaps, the instrumentation counters of release
invocations, the allocation fault-injection plan and the Python error indicator. -/
structure St where
  sHeap : List (Option ArrowSchema)
  aHeap : List (Option ArrowArray)
  stHeap : List (Option ArrowArrayStream)
  schemaReleases : Nat
  arrayReleases : Nat
  streamReleases : Nat
  allocPlan : List Bool
  pyerr : Option String
deriving Repr, DecidableEq

/-- Read a heap cell: none when the pointer is out of range or the cell was freed. -/
def heapGet {α : Type} (h : List (Option α)) (p : Nat) : Option α :=
  h.getD p none

/-- Overwrite a heap cell. -/
def heapSet {α : Type} (h : List (Option α)) (p : Nat) (v : Option α) : List (Option α) :=
  h.set p v

/-- Set the Python error indicator. -/
def setErr (st : St) (msg : String) : St := { st with pyerr := some msg }

/-- The ownership-relevant part of two states agrees: heaps, release counters and the
allocation plan (the Python error indicator is not ownership state). -/
def ownership_eq (s t : St) : Prop :=
  s.sHeap = t.sHeap ∧ s.aHeap = t.aHeap ∧ s.stHeap = t.stHeap ∧
  s.schemaReleases = t.schemaReleases ∧ s.arrayReleases = t.arrayReleases ∧
  s.streamReleases = t.streamReleases ∧ s.allocPlan = t.allocPlan

instance (s t : St) : Decidable (ownership_eq s t) := by
  unfold ownership_eq; infer_instance

/-- The release counters of two states agree: no release callback ran in between. -/
def releases_eq (s t : St) : Prop :=
  s.schemaReleases = t.schemaReleases ∧ s.arrayReleases = t.arrayReleases ∧
  s.streamReleases = t.streamReleases

instance (s t : St) : Decidable (releases_eq s t) := by
  unfold releases_eq; infer_instance

-- Internal capsule name constants (src/src/pycapsule.cpp lines 16-18)
def arrow_schema_str : String := "arrow_schema"
def arrow_array_str : String := "arrow_array"
def arrow_array_stream_str : String := "arrow_array_stream"

/-- CPython PyCapsule_GetPointer: yields the stored pointer only when the object is a
capsule (some) whose tag equals the requested name; otherwise yields none and sets the
error indicator.  It never reads the heaps. -/
def pyCapsule_GetPointer (st : St) (obj : Option Capsule) (name : String) :
    Option Nat × St :=
  match obj with
  | none => (none, setErr st "PyCapsule_GetPointer called with invalid PyCapsule object")
  | some c =>
    if c.tag = name then (some c.ptr, st)
    else (none, setErr st "PyCapsule_GetPointer called with incorrect name")

def planHead : List Bool → Bool
  | [] => true
  | b :: _ => b

def planTail : List Bool → List Bool
  | [] => []
  | _ :: r => r

/-- CPython PyCapsule_New: succeeds or fails according to the fault-injection plan;
on failure CPython sets the error indicator and returns null. -/
def pyCapsule_New (st : St) (p : Nat) (tag : String) : Option Capsule × St :=
  let st1 : St := { st with allocPlan := planTail st.allocPlan }
  if planHead st.allocPlan then (some ⟨tag, p⟩, st1)
  else (none, setErr st1 "PyCapsule_New failed")

-- Heap allocation of the three struct kinds (the C++ new expressions).

def newSchema (st : St) (s : ArrowSchema) : Nat × St :=
  (st.sHeap.length, { st with sHeap := st.sHeap ++ [some s] })

def newArray (st : St) (a : ArrowArray) : Nat × St :=
  (st.aHeap.length, { st with aHeap := st.aHeap ++ [some a] })

def newStream (st : St) (s : ArrowArrayStream) : Nat × St :=
  (st.stHeap.length, { st with stHeap := st.stHeap ++ [some s] })

/-- Invoke the release callback of a heap-resident ArrowSchema through its pointer:
counts one schema release and nulls the release field (the Arrow contract for release
implementations).  The source always guards the call with a null check, which this
definition absorbs: a cell with a null release field is left untouched. -/
def run_schema_release (st : St) (p : Nat) : St :=
  match heapGet st.sHeap p with
  | none => st
  | some s =>
    if s.release then
      { st with sHeap := heapSet st.sHeap p (some { s with release := false }),
                schemaReleases := st.schemaReleases + 1 }
    else st

def run_array_release (st : St) (p : Nat) : St :=
  match heapGet st.aHeap p with
  | none => st
  | some a =>
    if a.release then
      { st with aHeap := heapSet st.aHeap p (some { a with release := false }),
                arrayReleases := st.arrayReleases + 1 }
    else st

def run_stream_release (st : St) (p : Nat) : St :=
  match heapGet st.stHeap p with
  | none => st
  | some s =>
    if s.release then
      { st with stHeap := heapSet st.stHeap p (some { s with release := false }),
                streamReleases := st.streamReleases + 1 }
    else st

-- The C++ delete expressions: free the heap cell.

def deleteSchema (st : St) (p : Nat) : St :=
  { st with sHeap := heapSet st.sHeap p none }

def deleteArray (st : St) (p : Nat) : St :=
  { st with aHeap := heapSet st.aHeap p none }

def deleteStream (st : St) (p : Nat) : St :=
  { st with stHeap := heapSet st.stHeap p none }

/-- Capsule destructor for ArrowSchema (src/src/pycapsule.cpp lines 21-37): null
capsule is a no-op; a failed PyCapsule_GetPointer is a no-op; otherwise invoke the
release callback when non-null and delete the struct. -/
def release_arrow_schema_pycapsule (st : St) (capsule : Option Capsule) : St :=
  match capsule with
  | none => st
  | some c =>
    match pyCapsule_GetPointer st (some c) arrow_schema_str with
    | (none, st1) => st1
    | (some p, st1) => deleteSchema (run_schema_release st1 p) p

/-- Capsule destructor for ArrowArray (src/src/pycapsule.cpp lines 40-56). -/
def release_arrow_array_pycapsule (st : St) (capsule : Option Capsule) : St :=
  match capsule with
  | none => st
  | some c =>
    match pyCapsule_GetPointer st (some c) arrow_array_str with
    | (none, st1) => st1
    | (some p, st1) => deleteArray (run_array_release st1 p) p

/-- Capsule destructor for ArrowArrayStream (src/src/pycapsule.cpp lines 59-77). -/
def release_arrow_array_stream_pycapsule (st : St) (capsule : Option Capsule) : St :=
  match capsule with
  | none => st
  | some c =>
    match pyCapsule_GetPointer st (some c) arrow_array_stream_str with
    | (none, st1) => st1
    | (some p, st1) => deleteStream (run_stream_release st1 p) p

/-- Modelled from the spec: sparrow extract_arrow_structures (the upstream collaborator
operation extract) moves the two C structs out of the native array value, which is left
empty and invalid afterwards; the second component is the post value of the argument. -/
def extract_arrow_structures (arr : array) : (ArrowArray × ArrowSchema) × array :=
  ((arr.m_arr, arr.m_schema), array.empty)

/-- import_array_from_capsules (src/src/pycapsule.cpp lines 80-110): unwrap both
capsules by tag, failing early with an empty array; byte-copy both structs, null the
release field of both originals, and construct the native value from the copies. -/
def import_array_from_capsules (st : St) (schema_capsule array_capsule : Option Capsule) :
    array × St :=
  match pyCapsule_GetPointer st schema_capsule arrow_schema_str with
  | (none, st1) => (array.empty, st1)
  | (some sp, st1) =>
    match pyCapsule_GetPointer st1 array_capsule arrow_array_str with
    | (none, st2) => (array.empty, st2)
    | (some ap, st2) =>
      match heapGet st2.sHeap sp, heapGet st2.aHeap ap with
      | some schema_moved, some array_moved =>
        let st3 := { st2 with sHeap := heapSet st2.sHeap sp (some { schema_moved with release := false }) }
        let st4 := { st3 with aHeap := heapSet st3.aHeap ap (some { array_moved with release := false }) }
        (array.mk array_moved schema_moved, st4)
      | _, _ => (array.empty, st2)

/-- export_array_to_capsules (src/src/pycapsule.cpp lines 112-160): move-extract the
two structs, heap-allocate copies, wrap the schema copy, on failure release and delete
both copies; wrap the array copy, on failure destroy the schema capsule (Py_DECREF on
the fresh reference runs its destructor) and release and delete the array copy.  The
middle component of the result is the post value of the by-reference argument. -/
def export_array_to_capsules (st : St) (arr : array) :
    (Option Capsule × Option Capsule) × array × St :=
  let ex := extract_arrow_structures arr
  let arrow_arr := ex.1.1
  let arrow_sch := ex.1.2
  let ns := newSchema st arrow_sch
  let na := newArray ns.2 arrow_arr
  match pyCapsule_New na.2 ns.1 arrow_schema_str with
  | (none, st3) =>
    let st4 := deleteSchema (run_schema_release st3 ns.1) ns.1
    let st5 := deleteArray (run_array_release st4 na.1) na.1
    ((none, none), ex.2, st5)
  | (some sc, st3) =>
    match pyCapsule_New st3 na.1 arrow_array_str with
    | (none, st4) =>
      let st5 := release_arrow_schema_pycapsule st4 (some sc)
      let st6 := deleteArray (run_array_release st5 na.1) na.1
      ((none, none), ex.2, st6)
    | (some ac, st4) => ((some sc, some ac), ex.2, st4)

/-- Modelled from the spec: sparrow copy_schema makes an independent deep copy of a
schema; the copy owns its own buffers, so its release pointer is non-null. -/
def copy_schema (s : ArrowSchema) : ArrowSchema :=
  { format := s.format, release := true }

/-- export_schema_to_capsule (src/src/pycapsule.cpp lines 162-188): read the schema of
the array through a const pointer, heap-allocate an independent copy, wrap it; on
capsule allocation failure release and delete the copy.  The argument is taken by
const reference in the source; the middle component is its (unchanged) post value. -/
def export_schema_to_capsule (st : St) (arr : array) : Option Capsule × array × St :=
  let schema_copy := copy_schema arr.m_schema
  let ns := newSchema st schema_copy
  match pyCapsule_New ns.2 ns.1 arrow_schema_str with
  | (none, st2) => (none, arr, deleteSchema (run_schema_release st2 ns.1) ns.1)
  | (some c, st2) => (some c, arr, st2)

/-- Modelled from the spec: the sparrow native array destructor, the instrumentation
endpoint of the exactly-once-release property: it invokes the release callback of each
of its two descriptors when non-null, exactly once. -/
def destroy_array (st : St) (a : array) : St :=
  let st1 := if a.m_schema.release then
    { st with schemaReleases := st.schemaReleases + 1 } else st
  if a.m_arr.release then
    { st1 with arrayReleases := st1.arrayReleases + 1 } else st1

/-- Modelled from the spec: sparrow fill_arrow_array_stream builds a fresh stream with
empty private data, no schema set yet, and a live release callback. -/
def fill_arrow_array_stream : ArrowArrayStream :=
  { schema := none, queued := [], release := true }

/-- sparrow arrow_array_stream_proxy: a by-value wrapper of a stream descriptor
(none when the proxy holds no stream). -/
structure arrow_array_stream_proxy where
  stream : Option ArrowArrayStream
deriving Repr, DecidableEq

/-- Modelled from the spec: proxy export_stream claims the underlying StreamDescriptor;
it yields a pointer to the stream exactly when the proxy holds one whose release is
still live, and null otherwise. -/
def proxy_export_stream (p : arrow_array_stream_proxy) : Option ArrowArrayStream :=
  match p.stream with
  | none => none
  | some s => if s.release then some s else none

/-- The caller-side write stream_ptr null assignment of the release field of the stream
still held by the proxy (src/src/pycapsule.cpp line 296). -/
def proxy_null_release (p : arrow_array_stream_proxy) : arrow_array_stream_proxy :=
  match p.stream with
  | none => p
  | some s => { stream := some { s with release := false } }

/-- Modelled from the spec: proxy push appends the array to the pending FIFO of the
underlying stream, setting the stream schema from the array when not yet set. -/
def proxy_push (p : arrow_array_stream_proxy) (a : array) : arrow_array_stream_proxy :=
  match p.stream with
  | none => p
  | some s =>
    let s1 := if s.schema.isNone then { s with schema := some (copy_schema a.m_schema) } else s
    { stream := some { s1 with queued := s1.queued ++ [a.m_arr] } }

/-- The default schema read from a stream whose schema was never set. -/
def empty_schema : ArrowSchema := { format := "", release := false }

/-- Modelled from the spec: proxy pop removes and yields the FIFO head, pairing it with
an independent copy of the stream schema, or yields none when exhausted. -/
def proxy_pop (p : arrow_array_stream_proxy) : Option array × arrow_array_stream_proxy :=
  match p.stream with
  | none => (none, p)
  | some s =>
    match s.queued with
    | [] => (none, p)
    | a :: rest =>
      (some (array.mk a (copy_schema (s.schema.getD empty_schema))),
       { stream := some { s with queued := rest } })

/-- export_stream_proxy_to_capsule (src/src/pycapsule.cpp lines 283-315): claim the
stream from the proxy (failing with an error when there is none), heap-copy it, null
the release of the source still held by the proxy, wrap the copy; on capsule
allocation failure invoke the release of the heap copy when non-null and delete it.
The middle component is the post value of the by-reference proxy argument. -/
def export_stream_proxy_to_capsule (st : St) (p : arrow_array_stream_proxy) :
    Option Capsule × arrow_array_stream_proxy × St :=
  match proxy_export_stream p with
  | none => (none, p, setErr st "Failed to export stream from proxy")
  | some s =>
    let ns := newStream st s
    let p1 := proxy_null_release p
    match pyCapsule_New ns.2 ns.1 arrow_array_stream_str with
    | (none, st2) => (none, p1, deleteStream (run_stream_release st2 ns.1) ns.1)
    | (some c, st2) => (some c, p1, st2)

/-- The per-array body of the export loop of export_arrays_to_stream_capsule
(src/src/pycapsule.cpp lines 252-276), iterated over the input arrays: extract the
two structs, set the stream schema from the first array, queue the ArrowArray copy,
and release the local schema copy of each iteration when non-null. -/
def stream_push_loop : List array → Bool → ArrowArrayStream → St → ArrowArrayStream × St
  | [], _, s, st => (s, st)
  | arr :: rest, schema_set, s, st =>
    let ex := extract_arrow_structures arr
    let arrow_arr := ex.1.1
    let arrow_sch := ex.1.2
    let s1 := if schema_set then s else { s with schema := some (copy_schema arrow_sch) }
    let s2 := { s1 with queued := s1.queued ++ [arrow_arr] }
    let st1 := if arrow_sch.release then
      { st with schemaReleases := st.schemaReleases + 1 } else st
    stream_push_loop rest true s2 st1

/-- export_arrays_to_stream_capsule (src/src/pycapsule.cpp lines 236-281): fail with
the empty-stream error on an empty input; otherwise build one stream whose private
data holds all the arrays, the first schema becoming the stream schema, and export it
through the proxy. -/
def export_arrays_to_stream_capsule (st : St) (arrays : List array) : Option Capsule × St :=
  if arrays.isEmpty then
    (none, setErr st "Cannot create stream from empty array list")
  else
    let r := stream_push_loop arrays false fill_arrow_array_stream st
    let p : arrow_array_stream_proxy := { stream := some r.1 }
    let e := export_stream_proxy_to_capsule r.2 p
    (e.1, e.2.2)

/-- The pop-until-exhausted loop of import_arrays_from_stream_capsule, collecting every
queued array in FIFO order, each paired with a copy of the stream schema. -/
def pop_loop (sch : ArrowSchema) : List ArrowArray → List array
  | [] => []
  | a :: rest => array.mk a (copy_schema sch) :: pop_loop sch rest

/-- import_arrays_from_stream_capsule (src/src/pycapsule.cpp lines 190-218): unwrap the
stream capsule (failing with an empty result), pop every array through a non-owning
proxy view of the heap stream, then null the release of the stream so the capsule
destructor becomes a no-op. -/
def import_arrays_from_stream_capsule (st : St) (stream_capsule : Option Capsule) :
    List array × St :=
  match pyCapsule_GetPointer st stream_capsule arrow_array_stream_str with
  | (none, st1) => ([], st1)
  | (some p, st1) =>
    match heapGet st1.stHeap p with
    | none => ([], st1)
    | some s =>
      let result := pop_loop (s.schema.getD empty_schema) s.queued
      let st2 := { st1 with stHeap := heapSet st1.stHeap p (some { s with queued := [], release := false }) }
      (result, st2)

/-- SparrowArray (src/unnamed/part_003): a wrapper of one native array value. -/
structure SparrowArray where
  m_array : array
deriving Repr, DecidableEq

/-- SparrowStream: the stream proxy wrapper with its consumed flag. -/
structure SparrowStream where
  m_stream_proxy : arrow_array_stream_proxy
  m_consumed : Bool
deriving Repr, DecidableEq

/-- SparrowStream is_consumed accessor. -/
def SparrowStream.is_consumed (s : SparrowStream) : Bool := s.m_consumed

/-- SparrowStream push (src/src/sparrow_stream_python_class.cpp lines 16-23): throw
when consumed, leaving the object untouched; otherwise push into the proxy.  The
thrown runtime error is the error component; the second component is the post value
of the object. -/
def SparrowStream.push (s : SparrowStream) (arr : SparrowArray) :
    Except String Unit × SparrowStream :=
  if s.m_consumed then
    (Except.error "Cannot push to a consumed SparrowStream", s)
  else
    (Except.ok (), { s with m_stream_proxy := proxy_push s.m_stream_proxy arr.m_array })

/-- SparrowStream pop (src/src/sparrow_stream_python_class.cpp lines 37-49): throw
when consumed, leaving the object untouched; otherwise pop from the proxy. -/
def SparrowStream.pop (s : SparrowStream) :
    Except String (Option SparrowArray) × SparrowStream :=
  if s.m_consumed then
    (Except.error "Cannot pop from a consumed SparrowStream", s)
  else
    let r := proxy_pop s.m_stream_proxy
    (Except.ok (r.1.map SparrowArray.mk), { s with m_stream_proxy := r.2 })

/-- SparrowStream export_to_capsule as implemented in
src/src/sparrow_stream_python_class.cpp lines 25-35: fail when already consumed, set
the consumed flag BEFORE attempting the export, then export the proxy. -/
def SparrowStream.export_to_capsule (st : St) (s : SparrowStream) :
    Option Capsule × SparrowStream × St :=
  if s.m_consumed then
    (none, s, setErr st "SparrowStream has already been consumed")
  else
    let s1 := { s with m_consumed := true }
    let e := export_stream_proxy_to_capsule st s1.m_stream_proxy
    (e.1, { s1 with m_stream_proxy := e.2.1 }, e.2.2)

/-- SparrowStream export_to_capsule as implemented in src/unnamed/part_006 lines
21-35: fail when already consumed, export the proxy, and set the consumed flag only
when a capsule was actually produced. -/
def SparrowStream.export_to_capsule_v2 (st : St) (s : SparrowStream) :
    Option Capsule × SparrowStream × St :=
  if s.m_consumed then
    (none, s, setErr st "Stream has already been consumed")
  else
    let e := export_stream_proxy_to_capsule st s.m_stream_proxy
    (e.1, { s with m_stream_proxy := e.2.1, m_consumed := e.1.isSome }, e.2.2)

-- Heap lemmas: reading and writing the freshly allocated cell at the end of a heap.

theorem heapGet_append_self {α : Type} (h : List (Option α)) (v : Option α) :
    heapGet (h ++ [v]) h.length = v := by
  induction h with
  | nil => rfl
  | cons a t ih => simp [heapGet, List.getD]

theorem heapSet_append_self {α : Type} (h : List (Option α)) (v w : Option α) :
    heapSet (h ++ [v]) h.length w = h ++ [w] := by
  induction h with
  | nil => rfl
  | cons a t ih => simp [heapSet]

-- Concrete inputs for the witnesses: the 5-element int32 array of the spec scenario,
-- 10, 20, null, 40, 50, and a fresh state with all allocations succeeding.

def witness_arr : array :=
  { m_arr := { length := 5, null_count := 1,
               contents := [some 10, some 20, none, some 40, some 50], release := true },
    m_schema := { format := "i", release := true } }

def witness_st : St :=
  { sHeap := [], aHeap := [], stHeap := [], schemaReleases := 0, arrayReleases := 0,
    streamReleases := 0, allocPlan := [], pyerr := none }

/-- C3: importing the pair of capsules produced by exporting a native array yields an
array with the same length, the same null count and the same per-element contents. -/
theorem import_of_export_round_trip (st : St) (arr : array) (hplan : st.allocPlan = []) :
    ((import_array_from_capsules (export_array_to_capsules st arr).2.2
        (export_array_to_capsules st arr).1.1 (export_array_to_capsules st arr).1.2).1.size
      = arr.size)
  ∧ ((import_array_from_capsules (export_array_to_capsules st arr).2.2
        (export_array_to_capsules st arr).1.1 (export_array_to_capsules st arr).1.2).1.m_arr.null_count
      = arr.m_arr.null_count)
  ∧ ((import_array_from_capsules (export_array_to_capsules st arr).2.2
        (export_array_to_capsules st arr).1.1 (export_array_to_capsules st arr).1.2).1.m_arr.contents
      = arr.m_arr.contents) := by
  obtain ⟨sh, ah, sth, r1, r2, r3, plan, err⟩ := st
  simp only at hplan
  subst hplan
  simp [export_array_to_capsules, import_array_from_capsules, extract_arrow_structures,
        newSchema, newArray, pyCapsule_New, planHead, planTail, pyCapsule_GetPointer,
        arrow_schema_str, arrow_array_str, heapGet_append_self, heapSet_append_self,
        array.size]

/-- C3 witness: the spec scenario, a 5-element int32 array with a null at index 2. -/
theorem import_of_export_round_trip_witness :
    witness_st.allocPlan = []
  ∧ (((import_array_from_capsules (export_array_to_capsules witness_st witness_arr).2.2
        (export_array_to_capsules witness_st witness_arr).1.1
        (export_array_to_capsules witness_st witness_arr).1.2).1.size = witness_arr.size)
  ∧ ((import_array_from_capsules (export_array_to_capsules witness_st witness_arr).2.2
        (export_array_to_capsules witness_st witness_arr).1.1
        (export_array_to_capsules witness_st witness_arr).1.2).1.m_arr.null_count
      = witness_arr.m_arr.null_count)
  ∧ ((import_array_from_capsules (export_array_to_capsules witness_st witness_arr).2.2
        (export_array_to_capsules witness_st witness_arr).1.1
        (export_array_to_capsules witness_st witness_arr).1.2).1.m_arr.contents
      = witness_arr.m_arr.contents)) :=
  ⟨rfl, import_of_export_round_trip witness_st witness_arr rfl⟩

/-- C1: when the second (array) capsule allocation fails after the first (schema)
capsule succeeded, export_array_to_capsules destroys the schema capsule (running its
release), invokes the array copy release and frees it, and yields the failure pair:
both heap cells are freed, each release counter advances exactly once. -/
theorem export_rollback_on_second_capsule_failure (st : St) (arr : array)
    (hplan : st.allocPlan = [true, false])
    (hs : arr.m_schema.release = true) (ha : arr.m_arr.release = true) :
    ((export_array_to_capsules st arr).1 = (none, none))
  ∧ ((export_array_to_capsules st arr).2.2.schemaReleases = st.schemaReleases + 1)
  ∧ ((export_array_to_capsules st arr).2.2.arrayReleases = st.arrayReleases + 1)
  ∧ (heapGet (export_array_to_capsules st arr).2.2.sHeap st.sHeap.length = none)
  ∧ (heapGet (export_array_to_capsules st arr).2.2.aHeap st.aHeap.length = none) := by
  obtain ⟨sh, ah, sth, r1, r2, r3, plan, err⟩ := st
  obtain ⟨⟨len, nc, cont, rel⟩, ⟨fmt, srel⟩⟩ := arr
  simp only at hplan hs ha
  subst hplan; subst hs; subst ha
  simp [export_array_to_capsules, extract_arrow_structures, newSchema, newArray,
        pyCapsule_New, planHead, planTail, release_arrow_schema_pycapsule,
        pyCapsule_GetPointer, arrow_schema_str, run_schema_release, run_array_release,
        deleteSchema, deleteArray, setErr, heapGet_append_self, heapSet_append_self]

/-- C1 witness: the rollback at the concrete spec-scenario array, with the allocation
plan forcing the second capsule allocation to fail. -/
theorem export_rollback_on_second_capsule_failure_witness :
    ({ witness_st with allocPlan := [true, false] } : St).allocPlan = [true, false]
  ∧ witness_arr.m_schema.release = true
  ∧ witness_arr.m_arr.release = true
  ∧ (((export_array_to_capsules { witness_st with allocPlan := [true, false] } witness_arr).1
        = (none, none))
  ∧ ((export_array_to_capsules { witness_st with allocPlan := [true, false] } witness_arr).2.2.schemaReleases
        = ({ witness_st with allocPlan := [true, false] } : St).schemaReleases + 1)
  ∧ ((export_array_to_capsules { witness_st with allocPlan := [true, false] } witness_arr).2.2.arrayReleases
        = ({ witness_st with allocPlan := [true, false] } : St).arrayReleases + 1)
  ∧ (heapGet (export_array_to_capsules { witness_st with allocPlan := [true, false] } witness_arr).2.2.sHeap
        ({ witness_st with allocPlan := [true, false] } : St).sHeap.length = none)
  ∧ (heapGet (export_array_to_capsules { witness_st with allocPlan := [true, false] } witness_arr).2.2.aHeap
        ({ witness_st with allocPlan := [true, false] } : St).aHeap.length = none)) :=
  ⟨rfl, rfl, rfl,
   export_rollback_on_second_capsule_failure _ witness_arr rfl rfl rfl⟩

/-- C2: after a successful export both capsule payload structs carry a non-null
release; a successful import nulls both original structs; destroying both capsules
after the import runs no release logic; and destroying the imported native value then
fires each descriptor release exactly once in total. -/
theorem exactly_once_release (st : St) (arr : array)
    (hplan : st.allocPlan = []) (hs : arr.m_schema.release = true)
    (ha : arr.m_arr.release = true) :
    ((heapGet (export_array_to_capsules st arr).2.2.sHeap st.sHeap.length).map
        ArrowSchema.release = some true)
  ∧ ((heapGet (export_array_to_capsules st arr).2.2.aHeap st.aHeap.length).map
        ArrowArray.release = some true)
  ∧ ((heapGet (import_array_from_capsules (export_array_to_capsules st arr).2.2
        (export_array_to_capsules st arr).1.1 (export_array_to_capsules st arr).1.2).2.sHeap
        st.sHeap.length).map ArrowSchema.release = some false)
  ∧ ((heapGet (import_array_from_capsules (export_array_to_capsules st arr).2.2
        (export_array_to_capsules st arr).1.1 (export_array_to_capsules st arr).1.2).2.aHeap
        st.aHeap.length).map ArrowArray.release = some false)
  ∧ releases_eq
      (release_arrow_array_pycapsule
        (release_arrow_schema_pycapsule
          (import_array_from_capsules (export_array_to_capsules st arr).2.2
            (export_array_to_capsules st arr).1.1 (export_array_to_capsules st arr).1.2).2
          (export_array_to_capsules st arr).1.1)
        (export_array_to_capsules st arr).1.2) st
  ∧ ((destroy_array
        (release_arrow_array_pycapsule
          (release_arrow_schema_pycapsule
            (import_array_from_capsules (export_array_to_capsules st arr).2.2
              (export_array_to_capsules st arr).1.1 (export_array_to_capsules st arr).1.2).2
            (export_array_to_capsules st arr).1.1)
          (export_array_to_capsules st arr).1.2)
        (import_array_from_capsules (export_array_to_capsules st arr).2.2
          (export_array_to_capsules st arr).1.1 (export_array_to_capsules st arr).1.2).1).schemaReleases
      = st.schemaReleases + 1)
  ∧ ((destroy_array
        (release_arrow_array_pycapsule
          (release_arrow_schema_pycapsule
            (import_array_from_capsules (export_array_to_capsules st arr).2.2
              (export_array_to_capsules st arr).1.1 (export_array_to_capsules st arr).1.2).2
            (export_array_to_capsules st arr).1.1)
          (export_array_to_capsules st arr).1.2)
        (import_array_from_capsules (export_array_to_capsules st arr).2.2
          (export_array_to_capsules st arr).1.1 (export_array_to_capsules st arr).1.2).1).arrayReleases
      = st.arrayReleases + 1) := by
  obtain ⟨sh, ah, sth, r1, r2, r3, plan, err⟩ := st
  obtain ⟨⟨len, nc, cont, rel⟩, ⟨fmt, srel⟩⟩ := arr
  simp only at hplan hs ha
  subst hplan; subst hs; subst ha
  simp [export_array_to_capsules, import_array_from_capsules, extract_arrow_structures,
        newSchema, newArray, pyCapsule_New, planHead, planTail, pyCapsule_GetPointer,
        arrow_schema_str, arrow_array_str, release_arrow_schema_pycapsule,
        release_arrow_array_pycapsule, run_schema_release, run_array_release,
        deleteSchema, deleteArray, destroy_array, releases_eq, setErr,
        heapGet_append_self, heapSet_append_self]

-- Abbreviations of the concrete export, import, capsule-destruction and native
-- destruction stages at the witness input.

def c2_E : (Option Capsule × Option Capsule) × array × St :=
  export_array_to_capsules witness_st witness_arr

def c2_I : array × St := import_array_from_capsules c2_E.2.2 c2_E.1.1 c2_E.1.2

def c2_D : St :=
  release_arrow_array_pycapsule (release_arrow_schema_pycapsule c2_I.2 c2_E.1.1) c2_E.1.2

def c2_F : St := destroy_array c2_D c2_I.1

/-- C2 witness: the exactly-once pipeline at the concrete spec-scenario array. -/
theorem exactly_once_release_witness :
    witness_st.allocPlan = []
  ∧ witness_arr.m_schema.release = true
  ∧ witness_arr.m_arr.release = true
  ∧ (((heapGet c2_E.2.2.sHeap witness_st.sHeap.length).map ArrowSchema.release = some true)
  ∧ ((heapGet c2_E.2.2.aHeap witness_st.aHeap.length).map ArrowArray.release = some true)
  ∧ ((heapGet c2_I.2.sHeap witness_st.sHeap.length).map ArrowSchema.release = some false)
  ∧ ((heapGet c2_I.2.aHeap witness_st.aHeap.length).map ArrowArray.release = some false)
  ∧ releases_eq c2_D witness_st
  ∧ (c2_F.schemaReleases = witness_st.schemaReleases + 1)
  ∧ (c2_F.arrayReleases = witness_st.arrayReleases + 1)) :=
  ⟨rfl, rfl, rfl, exactly_once_release witness_st witness_arr rfl rfl rfl⟩

/-- C6: exporting an empty sequence of arrays as a stream always fails: no capsule,
the empty-stream error is reported, and no ownership state changes at all. -/
theorem export_empty_stream_fails (st : St) :
    ((export_arrays_to_stream_capsule st []).1 = none)
  ∧ ((export_arrays_to_stream_capsule st []).2.pyerr
      = some "Cannot create stream from empty array list")
  ∧ ownership_eq (export_arrays_to_stream_capsule st []).2 st := by
  simp [export_arrays_to_stream_capsule, setErr, ownership_eq]

/-- C7: unwrapping a capsule whose stored tag differs from the expected tag fails
without touching any ownership state (the unwrap never reads the heaps), and when
either unwrap inside import_array_from_capsules fails the import yields the empty
array with all ownership state unmodified. -/
theorem unwrap_tag_mismatch_and_import_rollback (st : St) (c : Capsule)
    (expected : String) (h : ¬ c.tag = expected) :
    ((pyCapsule_GetPointer st (some c) expected).1 = none)
  ∧ ownership_eq (pyCapsule_GetPointer st (some c) expected).2 st
  ∧ (∀ sc ac : Option Capsule,
      ((pyCapsule_GetPointer st sc arrow_schema_str).1 = none ∨
       (pyCapsule_GetPointer st ac arrow_array_str).1 = none) →
      ((import_array_from_capsules st sc ac).1 = array.empty)
    ∧ ownership_eq (import_array_from_capsules st sc ac).2 st) := by
  refine ⟨?_, ?_, ?_⟩
  · simp [pyCapsule_GetPointer, h]
  · simp [pyCapsule_GetPointer, h, setErr, ownership_eq]
  · intro sc ac hfail
    have huw : ∀ (t : St) (o : Option Capsule) (n : String),
        (pyCapsule_GetPointer t o n).1 = (pyCapsule_GetPointer st o n).1 := by
      intro t o n
      cases o with
      | none => simp [pyCapsule_GetPointer]
      | some k => by_cases hk : k.tag = n <;> simp [pyCapsule_GetPointer, hk]
    cases sc with
    | none => simp [import_array_from_capsules, pyCapsule_GetPointer, setErr, ownership_eq]
    | some ksc =>
      by_cases h1 : ksc.tag = arrow_schema_str
      · cases ac with
        | none => simp [import_array_from_capsules, pyCapsule_GetPointer, h1, setErr, ownership_eq]
        | some kac =>
          by_cases h2 : kac.tag = arrow_array_str
          · exfalso
            rcases hfail with hf | hf
            · simp [pyCapsule_GetPointer, h1] at hf
            · simp [pyCapsule_GetPointer, h2] at hf
          · simp [import_array_from_capsules, pyCapsule_GetPointer, h1, h2, setErr, ownership_eq]
      · simp [import_array_from_capsules, pyCapsule_GetPointer, h1, setErr, ownership_eq]

/-- C7 witness: a capsule tagged wrong_name unwrapped as arrow_schema, and the import
given that capsule together with a well-tagged array capsule. -/
theorem unwrap_tag_mismatch_witness :
    (¬ (Capsule.mk "wrong_name" 0).tag = arrow_schema_str)
  ∧ (((pyCapsule_GetPointer witness_st (some (Capsule.mk "wrong_name" 0)) arrow_schema_str).1 = none)
  ∧ ownership_eq (pyCapsule_GetPointer witness_st (some (Capsule.mk "wrong_name" 0)) arrow_schema_str).2 witness_st
  ∧ (∀ sc ac : Option Capsule,
      ((pyCapsule_GetPointer witness_st sc arrow_schema_str).1 = none ∨
       (pyCapsule_GetPointer witness_st ac arrow_array_str).1 = none) →
      ((import_array_from_capsules witness_st sc ac).1 = array.empty)
    ∧ ownership_eq (import_array_from_capsules witness_st sc ac).2 witness_st)) :=
  ⟨by decide,
   unwrap_tag_mismatch_and_import_rollback witness_st (Capsule.mk "wrong_name" 0)
     arrow_schema_str (by decide)⟩

/-- C9: each of the three capsule destructors is a safe no-op on a null capsule, runs
no release logic on a wrong-tag object, and invokes no release callback on a struct
whose release has already been nulled, so destruction after import never
double-releases. -/
theorem capsule_destructors_idempotent (st : St) (c : Capsule) :
    (release_arrow_schema_pycapsule st none = st)
  ∧ (release_arrow_array_pycapsule st none = st)
  ∧ (release_arrow_array_stream_pycapsule st none = st)
  ∧ (¬ c.tag = arrow_schema_str →
      ownership_eq (release_arrow_schema_pycapsule st (some c)) st)
  ∧ (¬ c.tag = arrow_array_str →
      ownership_eq (release_arrow_array_pycapsule st (some c)) st)
  ∧ (¬ c.tag = arrow_array_stream_str →
      ownership_eq (release_arrow_array_stream_pycapsule st (some c)) st)
  ∧ (∀ s : ArrowSchema, heapGet st.sHeap c.ptr = some s → s.release = false →
      c.tag = arrow_schema_str →
      releases_eq (release_arrow_schema_pycapsule st (some c)) st)
  ∧ (∀ a : ArrowArray, heapGet st.aHeap c.ptr = some a → a.release = false →
      c.tag = arrow_array_str →
      releases_eq (release_arrow_array_pycapsule st (some c)) st)
  ∧ (∀ s : ArrowArrayStream, heapGet st.stHeap c.ptr = some s → s.release = false →
      c.tag = arrow_array_stream_str →
      releases_eq (release_arrow_array_stream_pycapsule st (some c)) st) := by
  refine ⟨rfl, rfl, rfl, ?_, ?_, ?_, ?_, ?_, ?_⟩
  · intro h
    simp [release_arrow_schema_pycapsule, pyCapsule_GetPointer, h, setErr, ownership_eq]
  · intro h
    simp [release_arrow_array_pycapsule, pyCapsule_GetPointer, h, setErr, ownership_eq]
  · intro h
    simp [release_arrow_array_stream_pycapsule, pyCapsule_GetPointer, h, setErr, ownership_eq]
  · intro s hcell hrel htag
    simp [release_arrow_schema_pycapsule, pyCapsule_GetPointer, htag, run_schema_release,
          hcell, hrel, deleteSchema, releases_eq]
  · intro a hcell hrel htag
    simp [release_arrow_array_pycapsule, pyCapsule_GetPointer, htag, run_array_release,
          hcell, hrel, deleteArray, releases_eq]
  · intro s hcell hrel htag
    simp [release_arrow_array_stream_pycapsule, pyCapsule_GetPointer, htag, run_stream_release,
          hcell, hrel, deleteStream, releases_eq]

-- A state holding one already-released struct of each kind, for the C9 witness.

def c9_st : St :=
  { sHeap := [some { format := "i", release := false }],
    aHeap := [some { length := 1, null_count := 0, contents := [some 7], release := false }],
    stHeap := [some { schema := none, queued := [], release := false }],
    schemaReleases := 0, arrayReleases := 0, streamReleases := 0,
    allocPlan := [], pyerr := none }

/-- C9 witness: the destructors at a concrete state whose structs are already
release-nulled, exercised through a wrong-tag capsule and the three matching-tag
capsules at pointer 0. -/
theorem capsule_destructors_idempotent_witness :
    (¬ (Capsule.mk "wrong_name" 0).tag = arrow_schema_str)
  ∧ releases_eq (release_arrow_schema_pycapsule c9_st (some (Capsule.mk arrow_schema_str 0))) c9_st
  ∧ releases_eq (release_arrow_array_pycapsule c9_st (some (Capsule.mk arrow_array_str 0))) c9_st
  ∧ releases_eq (release_arrow_array_stream_pycapsule c9_st (some (Capsule.mk arrow_array_stream_str 0))) c9_st
  ∧ ownership_eq (release_arrow_schema_pycapsule c9_st (some (Capsule.mk "wrong_name" 0))) c9_st := by
  refine ⟨by decide, ?_, ?_, ?_, ?_⟩
  · exact (capsule_destructors_idempotent c9_st (Capsule.mk arrow_schema_str 0)).2.2.2.2.2.2.1
      _ rfl rfl rfl
  · exact (capsule_destructors_idempotent c9_st (Capsule.mk arrow_array_str 0)).2.2.2.2.2.2.2.1
      _ rfl rfl rfl
  · exact (capsule_destructors_idempotent c9_st (Capsule.mk arrow_array_stream_str 0)).2.2.2.2.2.2.2.2
      _ rfl rfl rfl
  · exact (capsule_destructors_idempotent c9_st (Capsule.mk "wrong_name" 0)).2.2.2.1 (by decide)

-- Characterization of the stream export loop: the queued FIFO receives exactly the
-- ArrowArray structs of the input, in order, the stream release stays live, and the
-- loop touches neither the stream heap nor the allocation plan.

theorem stream_push_loop_spec (S : List array) (b : Bool) (s : ArrowArrayStream) (st : St) :
    ((stream_push_loop S b s st).1.queued = s.queued ++ S.map array.m_arr)
  ∧ ((stream_push_loop S b s st).1.release = s.release)
  ∧ ((stream_push_loop S b s st).2.stHeap = st.stHeap)
  ∧ ((stream_push_loop S b s st).2.allocPlan = st.allocPlan) := by
  induction S generalizing b s st with
  | nil => simp [stream_push_loop]
  | cons a t ih =>
    by_cases hb : b <;> by_cases hr : a.m_schema.release <;>
      simp [stream_push_loop, extract_arrow_structures, hb, hr, ih]

-- The pop loop recovers the queued structs unchanged and in order.

theorem pop_loop_spec (sch : ArrowSchema) (L : List ArrowArray) :
    ((pop_loop sch L).map array.m_arr = L) ∧ ((pop_loop sch L).length = L.length) := by
  induction L with
  | nil => simp [pop_loop]
  | cons a t ih => simp [pop_loop, ih]

/-- C5: exporting a non-empty sequence of n arrays as a stream capsule and importing
that capsule recovers exactly n arrays carrying the original ArrowArray structs in the
original order. -/
theorem stream_round_trip (st : St) (S : List array)
    (hne : ¬ S = []) (hplan : st.allocPlan = []) :
    ((export_arrays_to_stream_capsule st S).1
      = some (Capsule.mk arrow_array_stream_str st.stHeap.length))
  ∧ ((import_arrays_from_stream_capsule (export_arrays_to_stream_capsule st S).2
        (export_arrays_to_stream_capsule st S).1).1.map array.m_arr = S.map array.m_arr)
  ∧ ((import_arrays_from_stream_capsule (export_arrays_to_stream_capsule st S).2
        (export_arrays_to_stream_capsule st S).1).1.length = S.length) := by
  have hempty : S.isEmpty = false := by
    cases S with
    | nil => exact absurd rfl hne
    | cons a t => rfl
  obtain ⟨hq, hr, hsh, hap⟩ := stream_push_loop_spec S false fill_arrow_array_stream st
  generalize hL : stream_push_loop S false fill_arrow_array_stream st = L at hq hr hsh hap
  obtain ⟨hpm, hpl⟩ := pop_loop_spec (L.1.schema.getD empty_schema) (S.map array.m_arr)
  have hrel : L.1.release = true := by rw [hr]; rfl
  have hqm : L.1.queued = S.map array.m_arr := by
    rw [hq]; simp [fill_arrow_array_stream]
  have hplanL : L.2.allocPlan = [] := by rw [hap, hplan]
  simp only [export_arrays_to_stream_capsule, hempty, Bool.false_eq_true, if_false, hL]
  simp [export_stream_proxy_to_capsule, proxy_export_stream, hrel, newStream,
        pyCapsule_New, planHead, planTail, hplanL, import_arrays_from_stream_capsule,
        pyCapsule_GetPointer, arrow_array_stream_str, heapGet_append_self, hsh, hqm,
        hpm, hpl]

-- Three 5-element arrays for the C5 witness, matching the spec scenario.

def witness_arr2 : array :=
  { m_arr := { length := 5, null_count := 0,
               contents := [some 1, some 2, some 3, some 4, some 5], release := true },
    m_schema := { format := "i", release := true } }

def witness_arr3 : array :=
  { m_arr := { length := 5, null_count := 0,
               contents := [some 6, some 7, some 8, some 9, none], release := true },
    m_schema := { format := "i", release := true } }

/-- C5 witness: a stream built from three 5-element arrays comes back as a 3-element
sequence in push order. -/
theorem stream_round_trip_witness :
    (¬ ([witness_arr, witness_arr2, witness_arr3] : List array) = [])
  ∧ witness_st.allocPlan = []
  ∧ (((export_arrays_to_stream_capsule witness_st [witness_arr, witness_arr2, witness_arr3]).1
      = some (Capsule.mk arrow_array_stream_str witness_st.stHeap.length))
  ∧ ((import_arrays_from_stream_capsule
        (export_arrays_to_stream_capsule witness_st [witness_arr, witness_arr2, witness_arr3]).2
        (export_arrays_to_stream_capsule witness_st [witness_arr, witness_arr2, witness_arr3]).1).1.map
          array.m_arr = ([witness_arr, witness_arr2, witness_arr3] : List array).map array.m_arr)
  ∧ ((import_arrays_from_stream_capsule
        (export_arrays_to_stream_capsule witness_st [witness_arr, witness_arr2, witness_arr3]).2
        (export_arrays_to_stream_capsule witness_st [witness_arr, witness_arr2, witness_arr3]).1).1.length
      = ([witness_arr, witness_arr2, witness_arr3] : List array).length)) :=
  ⟨by decide, rfl,
   stream_round_trip witness_st [witness_arr, witness_arr2, witness_arr3] (by decide) rfl⟩

-- Concrete inputs for C4: a live one-element-capable stream proxy, an allocation plan
-- whose next capsule allocation fails, and the two SparrowStream starting states.

def c4_st : St := { witness_st with allocPlan := [false] }

def c4_live : SparrowStream :=
  { m_stream_proxy := { stream := some fill_arrow_array_stream }, m_consumed := false }

def c4_done : SparrowStream :=
  { m_stream_proxy := { stream := some fill_arrow_array_stream }, m_consumed := true }

/-- C4 counterexample: in the implementation of src/src/sparrow_stream_python_class.cpp
the consumed flag is set before the export is attempted, so a call that fails (the
capsule allocation is refused) returns no capsule and still leaves is_consumed true,
refuting the claim that a failed call leaves the stream Active. -/
theorem export_failure_still_consumes_counterexample :
    ((SparrowStream.export_to_capsule c4_st c4_live).1 = none)
  ∧ ((SparrowStream.export_to_capsule c4_st c4_live).2.1.is_consumed = true) := by
  constructor <;> rfl

/-- C4 amended: in the src/unnamed/part_006 implementation the Active-to-Consumed
transition is triggered exactly by export_to_capsule succeeding (a failed call leaves
is_consumed false, a successful one sets it); the src/src implementation instead marks
the stream Consumed before attempting the export, so any call on an Active stream
leaves it Consumed, failed or not; in both, a call on a Consumed stream fails and
changes nothing, so the Consumed state is irreversible. -/
theorem export_consumed_transition_amended (st : St) (s : SparrowStream) :
    (s.m_consumed = false →
      (((SparrowStream.export_to_capsule_v2 st s).1 = none →
         (SparrowStream.export_to_capsule_v2 st s).2.1.is_consumed = false)
     ∧ ((SparrowStream.export_to_capsule_v2 st s).1.isSome = true →
         (SparrowStream.export_to_capsule_v2 st s).2.1.is_consumed = true)
     ∧ ((SparrowStream.export_to_capsule st s).2.1.is_consumed = true)))
  ∧ (s.m_consumed = true →
      (((SparrowStream.export_to_capsule st s).1 = none)
     ∧ ((SparrowStream.export_to_capsule st s).2.1 = s)
     ∧ ((SparrowStream.export_to_capsule_v2 st s).1 = none)
     ∧ ((SparrowStream.export_to_capsule_v2 st s).2.1 = s))) := by
  constructor
  · intro h
    refine ⟨?_, ?_, ?_⟩
    · intro hnone
      simp [SparrowStream.export_to_capsule_v2, h, SparrowStream.is_consumed] at hnone ⊢
      simp [hnone]
    · intro hsome
      simp [SparrowStream.export_to_capsule_v2, h, SparrowStream.is_consumed] at hsome ⊢
      simp [hsome]
    · simp [SparrowStream.export_to_capsule, h, SparrowStream.is_consumed]
  · intro h
    simp [SparrowStream.export_to_capsule, SparrowStream.export_to_capsule_v2, h]

/-- C4 witness: the amended statement exercised at concrete streams: a failing export
leaves the part_006 variant Active, a successful one consumes it, and a consumed
stream refuses a further export in both variants. -/
theorem export_consumed_transition_amended_witness :
    (c4_live.m_consumed = false
      ∧ (SparrowStream.export_to_capsule_v2 c4_st c4_live).2.1.is_consumed = false
      ∧ (SparrowStream.export_to_capsule_v2 witness_st c4_live).2.1.is_consumed = true)
  ∧ (c4_done.m_consumed = true
      ∧ (SparrowStream.export_to_capsule witness_st c4_done).1 = none
      ∧ (SparrowStream.export_to_capsule_v2 witness_st c4_done).1 = none) := by
  refine ⟨⟨rfl, ?_, ?_⟩, ⟨rfl, ?_, ?_⟩⟩
  · exact ((export_consumed_transition_amended c4_st c4_live).1 rfl).1 rfl
  · exact ((export_consumed_transition_amended witness_st c4_live).1 rfl).2.1 rfl
  · exact ((export_consumed_transition_amended witness_st c4_done).2 rfl).1
  · exact ((export_consumed_transition_amended witness_st c4_done).2 rfl).2.2.1

/-- C8: on a consumed SparrowStream every push fails with the consumed-stream error
and every pop fails with the consumed-stream error, and neither call changes the
stream, in particular its FIFO contents. -/
theorem push_pop_on_consumed_fail (s : SparrowStream) (a : SparrowArray)
    (h : s.m_consumed = true) :
    ((s.push a).1 = Except.error "Cannot push to a consumed SparrowStream")
  ∧ ((s.push a).2 = s)
  ∧ (s.pop.1 = Except.error "Cannot pop from a consumed SparrowStream")
  ∧ (s.pop.2 = s) := by
  simp [SparrowStream.push, SparrowStream.pop, h]

/-- C8 witness: push and pop at a concrete consumed stream. -/
theorem push_pop_on_consumed_fail_witness :
    c4_done.m_consumed = true
  ∧ (((c4_done.push (SparrowArray.mk witness_arr)).1
        = Except.error "Cannot push to a consumed SparrowStream")
  ∧ ((c4_done.push (SparrowArray.mk witness_arr)).2 = c4_done)
  ∧ (c4_done.pop.1 = Except.error "Cannot pop from a consumed SparrowStream")
  ∧ (c4_done.pop.2 = c4_done)) :=
  ⟨rfl, push_pop_on_consumed_fail c4_done (SparrowArray.mk witness_arr) rfl⟩

/-- C10: export_schema_to_capsule is non-consuming: it wraps an independent heap copy
of the schema, leaves the source array (and its release callbacks) unchanged and runs
no release logic, and the array stays fully exportable afterwards; the subsequent
export_array_to_capsules succeeds and, by contrast, leaves its input empty/invalid. -/
theorem export_schema_non_consuming (st : St) (arr : array) (hplan : st.allocPlan = []) :
    ((export_schema_to_capsule st arr).2.1 = arr)
  ∧ ((export_schema_to_capsule st arr).1 = some (Capsule.mk arrow_schema_str st.sHeap.length))
  ∧ (heapGet (export_schema_to_capsule st arr).2.2.sHeap st.sHeap.length
      = some (copy_schema arr.m_schema))
  ∧ ((export_schema_to_capsule st arr).2.2.aHeap = st.aHeap)
  ∧ releases_eq (export_schema_to_capsule st arr).2.2 st
  ∧ ((export_array_to_capsules (export_schema_to_capsule st arr).2.2
        (export_schema_to_capsule st arr).2.1).1.1.isSome = true)
  ∧ ((export_array_to_capsules (export_schema_to_capsule st arr).2.2
        (export_schema_to_capsule st arr).2.1).1.2.isSome = true)
  ∧ ((export_array_to_capsules (export_schema_to_capsule st arr).2.2
        (export_schema_to_capsule st arr).2.1).2.1 = array.empty) := by
  obtain ⟨sh, ah, sth, r1, r2, r3, plan, err⟩ := st
  simp only at hplan
  subst hplan
  simp [export_schema_to_capsule, export_array_to_capsules, extract_arrow_structures,
        copy_schema, newSchema, newArray, pyCapsule_New, planHead, planTail,
        releases_eq, heapGet_append_self]

/-- C10 witness: schema export then full export at the concrete spec-scenario array. -/
theorem export_schema_non_consuming_witness :
    witness_st.allocPlan = []
  ∧ (((export_schema_to_capsule witness_st witness_arr).2.1 = witness_arr)
  ∧ ((export_schema_to_capsule witness_st witness_arr).1
      = some (Capsule.mk arrow_schema_str witness_st.sHeap.length))
  ∧ (heapGet (export_schema_to_capsule witness_st witness_arr).2.2.sHeap
      witness_st.sHeap.length = some (copy_schema witness_arr.m_schema))
  ∧ ((export_schema_to_capsule witness_st witness_arr).2.2.aHeap = witness_st.aHeap)
  ∧ releases_eq (export_schema_to_capsule witness_st witness_arr).2.2 witness_st
  ∧ ((export_array_to_capsules (export_schema_to_capsule witness_st witness_arr).2.2
        (export_schema_to_capsule witness_st witness_arr).2.1).1.1.isSome = true)
  ∧ ((export_array_to_capsules (export_schema_to_capsule witness_st witness_arr).2.2
        (export_schema_to_capsule witness_st witness_arr).2.1).1.2.isSome = true)
  ∧ ((export_array_to_capsules (export_schema_to_capsule witness_st witness_arr).2.2
        (export_schema_to_capsule witness_st witness_arr).2.1).2.1 = array.empty)) :=
  ⟨rfl, export_schema_non_consuming witness_st witness_arr rfl⟩

end SparrowRockfinch
